import Mathlib

/-!
A shallow embedding of the NestPause request/offline core, translated from the
TypeScript source:

- `ErrorHandler` (error categorization and retry policy) from
  `src/utils/errorHandler.ts`;
- `OfflineManager` (offline operation queue, queue draining, single-flight
  guard) from `src/utils/offlineManager.ts`;
- `RequestService` (request approval state machine) from
  `src/services/entities/RequestService.ts`;
- `BaseService` (generic entity-store CRUD result handling) from
  `src/services/base/BaseService.ts`.

Modelling conventions: JavaScript duck-typed failure values (optional `.code`
and `.message` fields) become `RawError` with `Option String` fields;
JavaScript `||` string defaulting (falsy on the empty string) becomes `jsOr`;
`String.prototype.startsWith` / `includes` become character-list prefix/infix
tests; `Date` values become `Nat` milliseconds; the Firestore document store
behind `BaseService` becomes an in-memory list of documents keyed by `id`;
logging and external error reporting (pure side channels that do not affect
any returned value or any queue examined here) are omitted.
-/

/-- A raw JavaScript failure value as inspected by the classifier: an
arbitrary object that may or may not carry string `code` and `message`
fields. -/
structure RawError where
  code : Option String
  message : Option String
deriving DecidableEq, Repr

/-- `AppError` from `src/types/index.ts`: a classified error. The `timestamp`
field (`new Date()` at construction) is omitted; `details` holds the raw
underlying failure as in the source. -/
structure AppError where
  code : String
  message : String
  details : Option RawError := none
deriving DecidableEq, Repr

/-- JavaScript `a || b` for an optional string `a`: `b` when `a` is absent or
empty (falsy), else `a`. -/
def jsOr (a : Option String) (b : String) : String :=
  match a with
  | some s => if s = "" then b else s
  | none => b

/-- JavaScript `String.prototype.startsWith`, as a character-list test. -/
def strStartsWith (s p : String) : Bool :=
  List.isPrefixOf p.data s.data

/-- Whether `needle` occurs as a contiguous run inside `hay`. -/
def listHasRun (needle hay : List Char) : Bool :=
  List.isPrefixOf needle hay ||
    match hay with
    | [] => false
    | _ :: t => listHasRun needle t

/-- JavaScript `String.prototype.includes`, as a character-list test. -/
def strContains (s sub : String) : Bool :=
  listHasRun sub.data s.data

/-- `error.code?.startsWith(p)` on a raw failure (falsy when `code` is
absent). -/
def codeStartsWith (e : RawError) (p : String) : Bool :=
  match e.code with
  | some c => strStartsWith c p
  | none => false

/-- `error.message?.includes(s)` on a raw failure (falsy when `message` is
absent). -/
def msgIncludes (e : RawError) (s : String) : Bool :=
  match e.message with
  | some m => strContains m s
  | none => false

namespace ErrorHandler

/-- The per-subcode friendly message table for `auth/*` codes inside
`ErrorHandler.categorizeError` (`src/utils/errorHandler.ts`). -/
def authMessage (e : RawError) : String :=
  match e.code with
  | some "auth/user-not-found" => "No account found with this email address"
  | some "auth/wrong-password" => "Incorrect password"
  | some "auth/email-already-in-use" => "An account with this email already exists"
  | some "auth/weak-password" => "Password should be at least 6 characters"
  | some "auth/invalid-email" => "Invalid email address"
  | some "auth/too-many-requests" => "Too many failed attempts. Please try again later"
  | some "auth/network-request-failed" => "Network error. Please check your connection"
  | some "auth/user-disabled" => "This account has been disabled"
  | some "auth/requires-recent-login" => "Please sign in again to continue"
  | _ => jsOr e.message "Authentication error"

/-- The per-subcode friendly message table for `firestore/*` codes inside
`ErrorHandler.categorizeError`. -/
def firestoreMessage (e : RawError) : String :=
  match e.code with
  | some "firestore/permission-denied" => "You do not have permission to perform this action"
  | some "firestore/unavailable" => "Service temporarily unavailable. Please try again later"
  | some "firestore/deadline-exceeded" => "Request timed out. Please try again"
  | some "firestore/resource-exhausted" => "Too many requests. Please try again later"
  | some "firestore/unauthenticated" => "Please sign in to continue"
  | some "firestore/not-found" => "The requested resource was not found"
  | some "firestore/failed-precondition" => "Operation failed due to invalid state"
  | _ => jsOr e.message "Database error"

/-- The `retryableCodes` list of `ErrorHandler.isRetryableError`. -/
def retryableCodes : List String :=
  ["firestore/unavailable", "firestore/deadline-exceeded",
   "firestore/resource-exhausted", "NETWORK_ERROR", "TIMEOUT_ERROR"]

/-- `ErrorHandler.isRetryableError`: the code is in `retryableCodes`, or the
message mentions network or timeout. -/
def isRetryableError (e : RawError) : Bool :=
  (match e.code with
   | some c => retryableCodes.contains c
   | none => false)
  || msgIncludes e "network" || msgIncludes e "timeout"

/-- `ErrorHandler.categorizeError`: the ordered classification chain of
`src/utils/errorHandler.ts` lines 45-157, translated branch for branch. -/
def categorizeError (e : RawError) : AppError :=
  if codeStartsWith e "auth/" then
    { code := "AUTH_ERROR", message := authMessage e, details := some e }
  else if codeStartsWith e "firestore/" then
    { code := "FIRESTORE_ERROR", message := firestoreMessage e, details := some e }
  else if e.code = some "NETWORK_ERROR" || msgIncludes e "network" then
    { code := "NETWORK_ERROR",
      message := "Network error. Please check your internet connection", details := some e }
  else if e.code = some "TIMEOUT" || msgIncludes e "timeout" then
    { code := "TIMEOUT_ERROR", message := "Request timed out. Please try again",
      details := some e }
  else if e.code = some "VALIDATION_ERROR" then
    { code := "VALIDATION_ERROR", message := jsOr e.message "Invalid input provided",
      details := some e }
  else if e.code = some "PERMISSION_ERROR" then
    { code := "PERMISSION_ERROR",
      message := jsOr e.message "You do not have permission to perform this action",
      details := some e }
  else if e.code = some "BUSINESS_ERROR" then
    { code := "BUSINESS_ERROR", message := jsOr e.message "Operation not allowed",
      details := some e }
  else if isRetryableError e then
    { code := "RETRYABLE_ERROR", message := "Temporary error. Will retry automatically",
      details := some e }
  else
    { code := "UNKNOWN_ERROR", message := "An unexpected error occurred", details := some e }

/-- `ErrorHandler.handleError`: categorizes the raw failure and returns the
classified error. The logging, diagnostic-queue append and external reporting
side effects do not affect the returned value or the offline operation queue
and are omitted. -/
def handleError (e : RawError) : AppError :=
  categorizeError e

/-- `ErrorHandler.shouldRetry` (`src/utils/errorHandler.ts` lines 238-242). -/
def shouldRetry (e : AppError) : Bool :=
  e.code = "RETRYABLE_ERROR" || e.code = "NETWORK_ERROR" || e.code = "TIMEOUT_ERROR"

end ErrorHandler

/-- Claim C4: for every classified error `e`, `shouldRetry e` is true exactly
when `e.code` is one of RETRYABLE_ERROR, NETWORK_ERROR, TIMEOUT_ERROR, and
false for every other code (including UNKNOWN_ERROR). -/
theorem shouldRetry_iff_retryable_network_timeout (e : AppError) :
    ErrorHandler.shouldRetry e = true ↔
      e.code = "RETRYABLE_ERROR" ∨ e.code = "NETWORK_ERROR" ∨ e.code = "TIMEOUT_ERROR" := by
  simp [ErrorHandler.shouldRetry, or_assoc]

/-- A string starting with the characters of "firestore/" cannot also start
with the characters of "auth/": the first characters differ. -/
theorem not_auth_of_firestore (c : String)
    (h : strStartsWith c "firestore/" = true) :
    strStartsWith c "auth/" = false := by
  unfold strStartsWith at h ⊢
  have hfs : "firestore/".data = ['f', 'i', 'r', 'e', 's', 't', 'o', 'r', 'e', '/'] := rfl
  have hau : "auth/".data = ['a', 'u', 't', 'h', '/'] := rfl
  rw [hfs] at h
  rw [hau]
  cases hc : c.data with
  | nil => rw [hc] at h; simp [List.isPrefixOf] at h
  | cons b bs =>
    rw [hc] at h
    simp [List.isPrefixOf] at h ⊢
    intro hb
    rw [← hb] at h
    simp at h

/-- Claim C9 counterexample: classifying a raw failure with the
storage-provider code "firestore/unavailable" yields classification code
"FIRESTORE_ERROR", which is not "STORAGE_ERROR" and is not one of the spec's
fixed taxonomy codes. -/
theorem firestore_code_not_storage_error :
    (ErrorHandler.categorizeError ⟨some "firestore/unavailable", none⟩).code
        = "FIRESTORE_ERROR"
      ∧ (ErrorHandler.categorizeError ⟨some "firestore/unavailable", none⟩).code
        ≠ "STORAGE_ERROR"
      ∧ (ErrorHandler.categorizeError ⟨some "firestore/unavailable", none⟩).code ∉
        ["AUTH_ERROR", "STORAGE_ERROR", "NETWORK_ERROR", "TIMEOUT_ERROR",
         "VALIDATION_ERROR", "PERMISSION_ERROR", "BUSINESS_ERROR",
         "RETRYABLE_ERROR", "OFFLINE_ERROR", "UNKNOWN_ERROR"] := by
  refine ⟨rfl, by decide, by decide⟩

/-- Claim C9 (amended): for every raw failure whose code starts with
"firestore/", the classifier returns classification code "FIRESTORE_ERROR"
(a provider-named code, not the spec's "STORAGE_ERROR"). -/
theorem firestore_codes_map_to_firestore_error (e : RawError) (c : String)
    (hc : e.code = some c) (hfs : strStartsWith c "firestore/" = true) :
    (ErrorHandler.categorizeError e).code = "FIRESTORE_ERROR" := by
  unfold ErrorHandler.categorizeError codeStartsWith
  rw [hc]
  simp only [not_auth_of_firestore c hfs, hfs]
  simp

/-- Witness for `firestore_codes_map_to_firestore_error` at the concrete code
"firestore/not-found". -/
theorem firestore_codes_map_to_firestore_error_witness :
    (ErrorHandler.categorizeError ⟨some "firestore/not-found", some "missing"⟩).code
      = "FIRESTORE_ERROR" :=
  firestore_codes_map_to_firestore_error ⟨some "firestore/not-found", some "missing"⟩
    "firestore/not-found" rfl (by decide)

/-- `OfflineOperation` from `src/utils/offlineManager.ts`: one queue entry.
The wrapped thunk is not stored here; attempt outcomes are supplied to the
queue-processing functions as explicit parameters. `timestamp` is the enqueue
time in milliseconds. -/
structure OfflineOperation where
  id : String
  timestamp : Nat
  retryCount : Nat
  maxRetries : Nat
deriving DecidableEq, Repr

/-- The `OfflineManager` instance state relevant to the offline queue: the
derived offline-mode flag, the operation queue, and the single-flight drain
guard. -/
structure OMState where
  isOfflineMode : Bool
  operationQueue : List OfflineOperation
  isProcessingQueue : Bool
deriving DecidableEq, Repr

namespace OfflineManager

/-- `createOfflineError` from `src/utils/offlineManager.ts`. -/
def createOfflineError (message : String) : RawError :=
  { code := some "OFFLINE_ERROR", message := some message }

/-- The `networkErrorCodes` list of `OfflineManager.isNetworkError`. -/
def networkErrorCodes : List String :=
  ["NETWORK_ERROR", "TIMEOUT_ERROR", "firestore/unavailable",
   "firestore/deadline-exceeded", "auth/network-request-failed"]

/-- `OfflineManager.isNetworkError` (lines 319-332). -/
def isNetworkError (e : RawError) : Bool :=
  (match e.code with
   | some c => networkErrorCodes.contains c
   | none => false)
  || msgIncludes e "network" || msgIncludes e "timeout" || msgIncludes e "fetch"

/-- The caller-visible outcome of one `executeWithOfflineSupport` call: the
direct result, a pending queued promise for a freshly enqueued entry, the
original raw error re-thrown, or a categorized error thrown. -/
inductive ExecOutcome (α : Type) where
  | ok : α → ExecOutcome α
  | queuedPending : String → ExecOutcome α
  | thrownRaw : RawError → ExecOutcome α
  | thrownApp : AppError → ExecOutcome α
deriving DecidableEq, Repr

/-- `OfflineManager.executeWithOfflineSupport` (lines 165-201). The wrapped
operation's immediate result (when it runs at all) is passed in as
`opResult`; `newId` and `now` stand for the generated operation id and
`Date.now()` used when an entry is enqueued by `queueOperation`. -/
def executeWithOfflineSupport {α : Type} (st : OMState)
    (opResult : Except RawError α) (queueOnOffline : Bool) (maxRetries : Nat)
    (newId : String) (now : Nat) : ExecOutcome α × OMState :=
  if st.isOfflineMode = false then
    match opResult with
    | .ok a => (.ok a, st)
    | .error e =>
      if queueOnOffline && isNetworkError e then
        (.queuedPending newId,
         { st with operationQueue :=
             st.operationQueue ++ [⟨newId, now, 0, maxRetries⟩] })
      else
        (.thrownRaw e, st)
  else if queueOnOffline then
    (.queuedPending newId,
     { st with operationQueue :=
         st.operationQueue ++ [⟨newId, now, 0, maxRetries⟩] })
  else
    (.thrownApp (ErrorHandler.handleError
      (createOfflineError "Operation requires internet connection")), st)

/-- The outcome of the 5-minute cleanup timer installed by
`OfflineManager.queueOperation` (lines 238-244): it clears the completion
polling interval and, when the entry is still queued, rejects the caller's
promise with a timeout failure. It does not touch the queue itself. -/
inductive TimeoutOutcome where
  | rejected : String → TimeoutOutcome
  | noop : TimeoutOutcome
deriving DecidableEq, Repr

/-- The 5-minute timer body of `OfflineManager.queueOperation`, fired for the
entry `opId`: reject if the entry is still queued, resolve-path otherwise;
the returned state is the manager state after the timer runs. -/
def queueTimeoutFire (st : OMState) (opId : String) : TimeoutOutcome × OMState :=
  match st.operationQueue.find? (fun op => op.id == opId) with
  | some _ => (.rejected "Operation timed out while queued", st)
  | none => (.noop, st)

/-- The observable effects of one invocation of
`OfflineManager.executeQueuedOperation` (lines 289-307) on an entry whose
current attempt either succeeds (`succeeds = true`) or fails: whether the
returned promise fulfills, the entry record afterwards (its `retryCount` is
mutated in place on failure), whether the invocation itself removed the entry
from the queue, and the delay of the retry it scheduled, if any. -/
structure QueueExecResult where
  fulfilled : Bool
  op : OfflineOperation
  removedByInvoke : Bool
  retryDelay : Option Nat
deriving DecidableEq, Repr

/-- One invocation of `OfflineManager.executeQueuedOperation`: on success it
returns; on failure it increments `retryCount` and either schedules a retry
after `min (1000 * 2 ^ retryCount) 30000` milliseconds (when retries remain)
or removes the entry from the queue. In every case the promise returned to
the caller fulfills once this invocation's attempt has settled. -/
def executeQueuedOperation (op : OfflineOperation) (succeeds : Bool) :
    QueueExecResult :=
  if succeeds then
    { fulfilled := true, op := op, removedByInvoke := false, retryDelay := none }
  else
    let op2 : OfflineOperation := { op with retryCount := op.retryCount + 1 }
    if op2.retryCount ≤ op2.maxRetries then
      { fulfilled := true, op := op2, removedByInvoke := false,
        retryDelay := some (min (1000 * 2 ^ op2.retryCount) 30000) }
    else
      { fulfilled := true, op := op2, removedByInvoke := true, retryDelay := none }

/-- `OfflineManager.processOperationQueue` (lines 251-284): guarded by
`isProcessingQueue` (and by queue emptiness), it snapshots the queue, runs
`executeQueuedOperation` on every snapshot entry concurrently
(`Promise.allSettled`), then removes from the queue every entry whose
invocation promise fulfilled, and finally clears the guard. `succeeds` gives
each entry's first-attempt outcome by id. Returns the state after the drain
settles, the retries scheduled during it (entry id and backoff delay), and
the ids of the entries the drain executed. -/
def processOperationQueue (st : OMState) (succeeds : String → Bool) :
    OMState × List (String × Nat) × List String :=
  if st.isProcessingQueue = true ∨ st.operationQueue = [] then
    (st, [], [])
  else
    let operations := st.operationQueue
    let invoked := operations.map
      (fun op => (op.id, executeQueuedOperation op (succeeds op.id)))
    let afterInvokeRemovals := st.operationQueue.filter
      (fun o => !(invoked.any (fun p => p.1 == o.id && p.2.removedByInvoke)))
    let afterFulfilledRemovals := afterInvokeRemovals.filter
      (fun o => !(invoked.any (fun p => p.1 == o.id && p.2.fulfilled)))
    let retries := invoked.filterMap
      (fun p => p.2.retryDelay.map (fun d => (p.1, d)))
    ({ st with operationQueue := afterFulfilledRemovals, isProcessingQueue := false },
     retries, operations.map (fun op => op.id))

end OfflineManager

/-- Claim C5 (code bug evidence): with `offlineMode = true` and
`queueOnOffline = false`, `executeWithOfflineSupport` fails immediately and
leaves the operation queue unchanged — but the thrown categorized error
carries code "UNKNOWN_ERROR", not "OFFLINE_ERROR": `categorizeError` has no
branch preserving the OFFLINE_ERROR code that `createOfflineError` builds,
and the message "Operation requires internet connection" matches no
classification rule. -/
theorem offline_without_queueing_rejects_unknown_error :
    OfflineManager.executeWithOfflineSupport (α := Unit)
        ⟨true, [⟨"op1", 0, 0, 3⟩], false⟩ (.error ⟨none, none⟩) false 3 "op2" 1000 =
      (.thrownApp
        { code := "UNKNOWN_ERROR", message := "An unexpected error occurred",
          details := some ⟨some "OFFLINE_ERROR",
            some "Operation requires internet connection"⟩ },
       ⟨true, [⟨"op1", 0, 0, 3⟩], false⟩)
    ∧ "UNKNOWN_ERROR" ≠ "OFFLINE_ERROR" := by
  refine ⟨by decide, by decide⟩

/-- Claim C6 counterexample: when the 5-minute timer fires for an entry that
is still queued, the caller's promise is rejected with the timeout failure,
but the entry is NOT removed from the operation queue — the state after the
timer still holds the entry. -/
theorem queued_timeout_entry_not_removed :
    OfflineManager.queueTimeoutFire ⟨true, [⟨"op1", 0, 2, 3⟩], false⟩ "op1" =
      (.rejected "Operation timed out while queued", ⟨true, [⟨"op1", 0, 2, 3⟩], false⟩)
    ∧ ((OfflineManager.queueTimeoutFire ⟨true, [⟨"op1", 0, 2, 3⟩], false⟩ "op1").2.operationQueue.any
        (fun op => op.id == "op1")) = true := by
  refine ⟨by decide, by decide⟩

/-- Claim C6 (amended): a queued entry not completed within 5 minutes of
enqueue is rejected with a timeout failure, but it is left in the operation
queue (only the completion-polling interval is cleared); the manager state is
unchanged by the timer. -/
theorem queueTimeoutFire_rejects_and_preserves_queue (st : OMState) (opId : String)
    (h : st.operationQueue.any (fun op => op.id == opId) = true) :
    OfflineManager.queueTimeoutFire st opId =
      (.rejected "Operation timed out while queued", st) := by
  unfold OfflineManager.queueTimeoutFire
  rw [List.any_eq_true] at h
  obtain ⟨op, hmem, hop⟩ := h
  have hsome : (st.operationQueue.find? (fun op => op.id == opId)).isSome := by
    rw [List.find?_isSome]
    exact ⟨op, hmem, hop⟩
  obtain ⟨x, hx⟩ := Option.isSome_iff_exists.mp hsome
  rw [hx]

/-- Witness for `queueTimeoutFire_rejects_and_preserves_queue` on a concrete
one-entry queue. -/
theorem queueTimeoutFire_rejects_and_preserves_queue_witness :
    OfflineManager.queueTimeoutFire ⟨false, [⟨"op9", 5, 1, 3⟩], false⟩ "op9" =
      (.rejected "Operation timed out while queued", ⟨false, [⟨"op9", 5, 1, 3⟩], false⟩) :=
  queueTimeoutFire_rejects_and_preserves_queue ⟨false, [⟨"op9", 5, 1, 3⟩], false⟩ "op9"
    (by decide)

/-- Claim C7 (code bug evidence): draining a queue holding one entry whose
execution fails (retryCount 0, maxRetries 3) removes the entry from the queue
as soon as the drain settles, even though the entry has not completed and has
retries remaining — because `executeQueuedOperation`'s promise fulfills after
merely scheduling the retry (here with backoff `min (1000 * 2 ^ 1) 30000 =
2000` ms), and the drain removes every entry whose promise fulfilled. This
contradicts the claim (and the source's own "Remove completed operations"
comment), under which the entry would stay queued until success or retry
exhaustion. -/
theorem drain_removes_failed_entry_with_retries_remaining :
    OfflineManager.processOperationQueue ⟨false, [⟨"op1", 0, 0, 3⟩], false⟩
        (fun _ => false) =
      (⟨false, [], false⟩, [("op1", 2000)], ["op1"])
    ∧ (OfflineManager.executeQueuedOperation ⟨"op1", 0, 0, 3⟩ false).op.retryCount ≤ 3
    ∧ (OfflineManager.executeQueuedOperation ⟨"op1", 0, 0, 3⟩ false).fulfilled = true := by
  refine ⟨by decide, by decide, by decide⟩

/-- Claim C8: the drain is single-flight — while `isProcessingQueue` is set
by an in-flight drain, any overlapping `processOperationQueue` invocation is
a no-op: the state is unchanged, nothing is scheduled, and no queued
operation is executed. -/
theorem drain_guard_single_flight (st : OMState) (succeeds : String → Bool)
    (h : st.isProcessingQueue = true) :
    OfflineManager.processOperationQueue st succeeds = (st, [], []) := by
  unfold OfflineManager.processOperationQueue
  rw [if_pos (Or.inl h)]

/-- Witness for `drain_guard_single_flight`: an overlapping drain invocation
on a concrete mid-drain state with a nonempty queue executes nothing. -/
theorem drain_guard_single_flight_witness :
    OfflineManager.processOperationQueue ⟨false, [⟨"op1", 0, 0, 3⟩], true⟩
        (fun _ => true) =
      (⟨false, [⟨"op1", 0, 0, 3⟩], true⟩, [], []) :=
  drain_guard_single_flight ⟨false, [⟨"op1", 0, 0, 3⟩], true⟩ (fun _ => true) rfl

/-- The `Approval.decision` union type `'approve' | 'deny'` from
`src/types/index.ts`. -/
inductive Decision where
  | approve
  | deny
deriving DecidableEq, Repr

/-- `Approval` from `src/types/index.ts`: an immutable parent decision
record. `timestamp` is milliseconds. -/
structure Approval where
  parentId : String
  decision : Decision
  reason : Option String
  timestamp : Nat
deriving DecidableEq, Repr

/-- `RequestStatus` from `src/types/index.ts`. -/
inductive RequestStatus where
  | pending
  | approved
  | denied
  | expired
deriving DecidableEq, Repr

/-- `Request` from `src/types/index.ts`. The fields not examined by any
operation modelled here (`type`, `target`, `duration`, `reason`, and the
provider-stamped `createdAt`/`updatedAt`) are omitted; `expiresAt` is
milliseconds. -/
structure Request where
  id : String
  familyId : String
  requesterId : String
  status : RequestStatus
  approvals : List Approval
  expiresAt : Nat
deriving DecidableEq, Repr

/-- `ApiResponse` from `src/types/index.ts`. -/
structure ApiResponse (α : Type) where
  success : Bool
  data : Option α := none
  error : Option String := none
  message : Option String := none
deriving DecidableEq, Repr

namespace RequestService

/-- The Firestore `requests` collection behind `BaseService<Request>`,
modelled as an in-memory list of documents; lookup by document id as
performed by `BaseService.getById`. -/
def findRequest (s : List Request) (rid : String) : Option Request :=
  s.find? (fun r => r.id == rid)

/-- `BaseService.update(id, partial)` on the `requests` collection: the
document with the given id is replaced by the merge `f` of the partial into
it (Firestore `updateDoc` merge semantics); other documents are untouched. -/
def updateById (s : List Request) (rid : String) (f : Request → Request) :
    List Request :=
  s.map (fun r => if r.id == rid then f r else r)

/-- `RequestService.calculateRequestStatus`
(`src/services/entities/RequestService.ts` lines 165-183). -/
def calculateRequestStatus (approvals : List Approval) : RequestStatus :=
  if approvals.length = 0 then .pending
  else if approvals.any (fun a => a.decision == Decision.deny) then .denied
  else if approvals.any (fun a => a.decision == Decision.approve) then .approved
  else .pending

/-- The spec's status-derivation rule, stated from the spec's words for
comparison with the source's `calculateRequestStatus`: any deny → denied;
else any approve → approved; else (empty sequence) → pending. -/
def specStatusOfApprovals (approvals : List Approval) : RequestStatus :=
  if approvals.any (fun a => a.decision == Decision.deny) then .denied
  else if approvals.any (fun a => a.decision == Decision.approve) then .approved
  else .pending

/-- `RequestService.approveRequest` (lines 107-131): fetch the request,
propagate a failed fetch, otherwise append an approve decision, recompute the
status from the appended list, and write both back. Returns the updated store
and the operation's response. -/
def approveRequest (s : List Request) (requestId parentId : String)
    (reason : Option String) (now : Nat) : List Request × ApiResponse Request :=
  match findRequest s requestId with
  | none => (s, { success := false, error := some "Document not found" })
  | some r =>
    let approval : Approval :=
      { parentId := parentId, decision := .approve, reason := reason, timestamp := now }
    let updatedApprovals := r.approvals ++ [approval]
    let status := calculateRequestStatus updatedApprovals
    let s2 := updateById s requestId
      (fun q => { q with approvals := updatedApprovals, status := status })
    (s2, { success := true, data := findRequest s2 requestId })

/-- `RequestService.denyRequest` (lines 136-160): as `approveRequest` but
appending a deny decision. -/
def denyRequest (s : List Request) (requestId parentId : String)
    (reason : Option String) (now : Nat) : List Request × ApiResponse Request :=
  match findRequest s requestId with
  | none => (s, { success := false, error := some "Document not found" })
  | some r =>
    let approval : Approval :=
      { parentId := parentId, decision := .deny, reason := reason, timestamp := now }
    let updatedApprovals := r.approvals ++ [approval]
    let status := calculateRequestStatus updatedApprovals
    let s2 := updateById s requestId
      (fun q => { q with approvals := updatedApprovals, status := status })
    (s2, { success := true, data := findRequest s2 requestId })

/-- `RequestService.checkRequestExpiry` (lines 188-200): fetch the request;
when `expiresAt < now` (strict, as in the source's `Date` comparison) and the
status is still pending, write status expired; otherwise return the request
unchanged. -/
def checkRequestExpiry (s : List Request) (requestId : String) (now : Nat) :
    List Request × ApiResponse Request :=
  match findRequest s requestId with
  | none => (s, { success := false, error := some "Document not found" })
  | some r =>
    if r.expiresAt < now ∧ r.status = RequestStatus.pending then
      let s2 := updateById s requestId (fun q => { q with status := RequestStatus.expired })
      (s2, { success := true, data := findRequest s2 requestId })
    else
      (s, { success := true, data := some r })

end RequestService

/-- Updating the document `rid` rewrites exactly the found document, as long
as the merge preserves the document id. -/
theorem findRequest_updateById (s : List Request) (rid : String)
    (f : Request → Request) (hf : ∀ r, (f r).id = r.id) :
    RequestService.findRequest (RequestService.updateById s rid f) rid =
      (RequestService.findRequest s rid).map f := by
  unfold RequestService.findRequest RequestService.updateById
  induction s with
  | nil => rfl
  | cons a t ih =>
    rw [List.map_cons]
    by_cases h : (a.id == rid) = true
    · rw [if_pos h, List.find?_cons, List.find?_cons]
      simp [hf a, h]
    · rw [if_neg h, List.find?_cons, List.find?_cons]
      rw [Bool.not_eq_true] at h
      simp only [h]
      exact ih

/-- The source's `calculateRequestStatus` computes exactly the spec's
derivation rule: on the empty list both sides are pending, and on a nonempty
list the branch structures coincide. -/
theorem calculateRequestStatus_eq_spec (l : List Approval) :
    RequestService.calculateRequestStatus l = RequestService.specStatusOfApprovals l := by
  cases l with
  | nil => rfl
  | cons a t =>
    unfold RequestService.calculateRequestStatus RequestService.specStatusOfApprovals
    rw [if_neg (by simp)]

/-- Any approval list containing a deny decision derives status denied. -/
theorem calculateRequestStatus_denied_of_any_deny (l : List Approval)
    (h : l.any (fun a => a.decision == Decision.deny) = true) :
    RequestService.calculateRequestStatus l = RequestStatus.denied := by
  unfold RequestService.calculateRequestStatus
  have hne : l ≠ [] := by
    rintro rfl
    simp at h
  rw [if_neg (by simp [hne]), if_pos h]

/-- Effect of `approveRequest` on the stored document: the approve decision
is appended and the status recomputed from the appended list. -/
theorem approveRequest_find (s : List Request) (rid pid : String)
    (rs : Option String) (t : Nat) (r : Request)
    (h : RequestService.findRequest s rid = some r) :
    RequestService.findRequest (RequestService.approveRequest s rid pid rs t).1 rid =
      some { r with
        approvals := r.approvals ++ [⟨pid, Decision.approve, rs, t⟩],
        status := RequestService.calculateRequestStatus
          (r.approvals ++ [⟨pid, Decision.approve, rs, t⟩]) } := by
  unfold RequestService.approveRequest
  rw [h]
  simp only
  rw [findRequest_updateById s rid
    (fun q => { q with
      approvals := r.approvals ++ [⟨pid, Decision.approve, rs, t⟩],
      status := RequestService.calculateRequestStatus
        (r.approvals ++ [⟨pid, Decision.approve, rs, t⟩]) })
    (fun q => rfl), h]
  rfl

/-- Effect of `denyRequest` on the stored document: the deny decision is
appended and the status recomputed from the appended list. -/
theorem denyRequest_find (s : List Request) (rid pid : String)
    (rs : Option String) (t : Nat) (r : Request)
    (h : RequestService.findRequest s rid = some r) :
    RequestService.findRequest (RequestService.denyRequest s rid pid rs t).1 rid =
      some { r with
        approvals := r.approvals ++ [⟨pid, Decision.deny, rs, t⟩],
        status := RequestService.calculateRequestStatus
          (r.approvals ++ [⟨pid, Decision.deny, rs, t⟩]) } := by
  unfold RequestService.denyRequest
  rw [h]
  simp only
  rw [findRequest_updateById s rid
    (fun q => { q with
      approvals := r.approvals ++ [⟨pid, Decision.deny, rs, t⟩],
      status := RequestService.calculateRequestStatus
        (r.approvals ++ [⟨pid, Decision.deny, rs, t⟩]) })
    (fun q => rfl), h]
  rfl

/-- Claim C1: appending a parent decision through `approveRequest` or
`denyRequest` recomputes the stored status from the full approvals list by
the rule: any deny → denied; else any approve → approved; else (empty list)
pending — the source's `calculateRequestStatus` equals that rule on every
list, and each stored document after an append carries the appended list with
the recomputed status; in particular a deny followed by an approve on the
same request leaves final status denied. -/
theorem approval_append_recomputes_status_from_full_list :
    (∀ l, RequestService.calculateRequestStatus l = RequestService.specStatusOfApprovals l)
    ∧ (∀ s rid pid rs t r, RequestService.findRequest s rid = some r →
        RequestService.findRequest (RequestService.approveRequest s rid pid rs t).1 rid =
          some { r with
            approvals := r.approvals ++ [⟨pid, Decision.approve, rs, t⟩],
            status := RequestService.specStatusOfApprovals
              (r.approvals ++ [⟨pid, Decision.approve, rs, t⟩]) })
    ∧ (∀ s rid pid rs t r, RequestService.findRequest s rid = some r →
        RequestService.findRequest (RequestService.denyRequest s rid pid rs t).1 rid =
          some { r with
            approvals := r.approvals ++ [⟨pid, Decision.deny, rs, t⟩],
            status := RequestService.specStatusOfApprovals
              (r.approvals ++ [⟨pid, Decision.deny, rs, t⟩]) })
    ∧ (∀ s rid p1 rs1 t1 p2 rs2 t2 r, RequestService.findRequest s rid = some r →
        (RequestService.findRequest
          (RequestService.approveRequest
            (RequestService.denyRequest s rid p1 rs1 t1).1 rid p2 rs2 t2).1 rid).map
          Request.status = some RequestStatus.denied) := by
  refine ⟨calculateRequestStatus_eq_spec, ?_, ?_, ?_⟩
  · intro s rid pid rs t r h
    rw [approveRequest_find s rid pid rs t r h, calculateRequestStatus_eq_spec]
  · intro s rid pid rs t r h
    rw [denyRequest_find s rid pid rs t r h, calculateRequestStatus_eq_spec]
  · intro s rid p1 rs1 t1 p2 rs2 t2 r h
    have h1 := denyRequest_find s rid p1 rs1 t1 r h
    rw [approveRequest_find _ rid p2 rs2 t2 _ h1]
    simp [calculateRequestStatus_denied_of_any_deny, List.any_append]

/-- Witness for `approval_append_recomputes_status_from_full_list`: a deny
then an approve appended to a concrete pending request yield stored status
denied. -/
theorem approval_append_recomputes_status_witness :
    (RequestService.findRequest
      (RequestService.approveRequest
        (RequestService.denyRequest
          [⟨"r1", "f1", "u1", RequestStatus.pending, [], 3600000⟩]
          "r1" "p1" none 10).1 "r1" "p2" none 20).1 "r1").map
      Request.status = some RequestStatus.denied :=
  approval_append_recomputes_status_from_full_list.2.2.2
    [⟨"r1", "f1", "u1", RequestStatus.pending, [], 3600000⟩]
    "r1" "p1" none 10 "p2" none 20
    ⟨"r1", "f1", "u1", RequestStatus.pending, [], 3600000⟩ rfl

/-- Claim C2 counterexample: `denyRequest` on a request already in the
terminal status approved changes its stored status to denied — a transition
out of a terminal state. -/
theorem deny_on_approved_request_changes_status :
    (RequestService.findRequest
      (RequestService.denyRequest
        [⟨"r1", "f1", "u1", RequestStatus.approved,
          [⟨"p1", Decision.approve, none, 5⟩], 3600000⟩]
        "r1" "p2" none 10).1 "r1").map Request.status = some RequestStatus.denied
    ∧ RequestStatus.denied ≠ RequestStatus.approved := by
  refine ⟨by decide, by decide⟩

/-- Claim C2 (amended): only partial terminal stability holds — a request
whose approvals already contain a deny keeps status denied under both
`approveRequest` and `denyRequest`, and `checkRequestExpiry` returns any
non-pending request unchanged; but approved and expired are not stable under
decision appends (see the counterexample). -/
theorem denied_and_nonpending_stability :
    (∀ s rid pid rs t r, RequestService.findRequest s rid = some r →
      r.approvals.any (fun a => a.decision == Decision.deny) = true →
      (RequestService.findRequest (RequestService.approveRequest s rid pid rs t).1 rid).map
          Request.status = some RequestStatus.denied
      ∧ (RequestService.findRequest (RequestService.denyRequest s rid pid rs t).1 rid).map
          Request.status = some RequestStatus.denied)
    ∧ (∀ s rid now r, RequestService.findRequest s rid = some r →
      r.status ≠ RequestStatus.pending →
      RequestService.checkRequestExpiry s rid now = (s, { success := true, data := some r })) := by
  constructor
  · intro s rid pid rs t r h hd
    constructor
    · rw [approveRequest_find s rid pid rs t r h]
      simp [calculateRequestStatus_denied_of_any_deny, List.any_append, hd]
    · rw [denyRequest_find s rid pid rs t r h]
      simp [calculateRequestStatus_denied_of_any_deny, List.any_append, hd]
  · intro s rid now r h hp
    unfold RequestService.checkRequestExpiry
    rw [h]
    simp only
    rw [if_neg (fun hc => hp hc.2)]

/-- Witness for `denied_and_nonpending_stability` on a concrete denied
request. -/
theorem denied_and_nonpending_stability_witness :
    (RequestService.findRequest
      (RequestService.approveRequest
        [⟨"r1", "f1", "u1", RequestStatus.denied,
          [⟨"p1", Decision.deny, none, 1⟩], 50⟩] "r1" "p2" none 9).1 "r1").map
      Request.status = some RequestStatus.denied
    ∧ RequestService.checkRequestExpiry
        [⟨"r1", "f1", "u1", RequestStatus.denied,
          [⟨"p1", Decision.deny, none, 1⟩], 50⟩] "r1" 99 =
      ([⟨"r1", "f1", "u1", RequestStatus.denied, [⟨"p1", Decision.deny, none, 1⟩], 50⟩],
       { success := true,
         data := some ⟨"r1", "f1", "u1", RequestStatus.denied,
           [⟨"p1", Decision.deny, none, 1⟩], 50⟩ }) :=
  ⟨(denied_and_nonpending_stability.1
      [⟨"r1", "f1", "u1", RequestStatus.denied, [⟨"p1", Decision.deny, none, 1⟩], 50⟩]
      "r1" "p2" none 9
      ⟨"r1", "f1", "u1", RequestStatus.denied, [⟨"p1", Decision.deny, none, 1⟩], 50⟩
      rfl (by decide)).1,
   denied_and_nonpending_stability.2
      [⟨"r1", "f1", "u1", RequestStatus.denied, [⟨"p1", Decision.deny, none, 1⟩], 50⟩]
      "r1" 99
      ⟨"r1", "f1", "u1", RequestStatus.denied, [⟨"p1", Decision.deny, none, 1⟩], 50⟩
      rfl (by decide)⟩

/-- Claim C3 counterexample: at the boundary instant `now = expiresAt`, a
pending request is returned unchanged by `checkRequestExpiry` — the source
compares with strict `<`, so the transition does not fire at the boundary
even though `now ≥ expiresAt` holds there. -/
theorem expiry_boundary_instant_does_not_fire :
    RequestService.checkRequestExpiry
        [⟨"r1", "f1", "u1", RequestStatus.pending, [], 3600000⟩] "r1" 3600000 =
      ([⟨"r1", "f1", "u1", RequestStatus.pending, [], 3600000⟩],
       { success := true,
         data := some ⟨"r1", "f1", "u1", RequestStatus.pending, [], 3600000⟩ })
    ∧ 3600000 ≥ 3600000 := by
  refine ⟨by decide, by decide⟩

/-- Claim C3 (amended): `checkRequestExpiry` transitions the stored status to
expired exactly when the request is pending and `expiresAt < now` (strictly
before the evaluation instant); in every other case — including the boundary
instant `now = expiresAt` — the store and the returned request are
unchanged. -/
theorem checkRequestExpiry_strict_threshold (s : List Request) (rid : String)
    (now : Nat) (r : Request) (h : RequestService.findRequest s rid = some r) :
    (r.expiresAt < now ∧ r.status = RequestStatus.pending →
      RequestService.findRequest (RequestService.checkRequestExpiry s rid now).1 rid =
        some { r with status := RequestStatus.expired })
    ∧ (¬(r.expiresAt < now ∧ r.status = RequestStatus.pending) →
      RequestService.checkRequestExpiry s rid now =
        (s, { success := true, data := some r })) := by
  constructor
  · intro hc
    unfold RequestService.checkRequestExpiry
    rw [h]
    simp only
    rw [if_pos hc]
    simp only
    rw [findRequest_updateById s rid
      (fun q => { q with status := RequestStatus.expired }) (fun q => rfl), h]
    rfl
  · intro hc
    unfold RequestService.checkRequestExpiry
    rw [h]
    simp only
    rw [if_neg hc]

/-- Witness for `checkRequestExpiry_strict_threshold`: a request created with
a 1-hour expiry, still pending when evaluated at the 2-hour mark, becomes
expired. -/
theorem checkRequestExpiry_strict_threshold_witness :
    RequestService.findRequest
        (RequestService.checkRequestExpiry
          [⟨"r1", "f1", "u1", RequestStatus.pending, [], 3600000⟩] "r1" 7200000).1 "r1" =
      some ⟨"r1", "f1", "u1", RequestStatus.expired, [], 3600000⟩ :=
  (checkRequestExpiry_strict_threshold
    [⟨"r1", "f1", "u1", RequestStatus.pending, [], 3600000⟩] "r1" 7200000
    ⟨"r1", "f1", "u1", RequestStatus.pending, [], 3600000⟩ rfl).1 (by decide)

namespace BaseService

/-- `BaseService.handleError` (`src/services/base/BaseService.ts` lines
346-360): builds an `AppError` directly from the raw provider failure —
`code` and `message` fall back through JavaScript `||` — and returns a failed
`ApiResponse` whose surfaced `error` string is that message. It does not call
the Error Classifier. -/
def handleError (α : Type) (e : RawError) : ApiResponse α :=
  let appError : AppError :=
    { code := jsOr e.code "UNKNOWN_ERROR",
      message := jsOr e.message "An unexpected error occurred",
      details := some e }
  { success := false, error := some appError.message }

/-- `BaseService.create` (lines 147-168) as a function of the provider
round-trip outcome: the created entity on success, the raw provider failure
on a thrown exception. -/
def create (α : Type) (providerResult : Except RawError α) : ApiResponse α :=
  match providerResult with
  | .ok e => { success := true, data := some e }
  | .error err => handleError α err

/-- `BaseService.getById` (lines 173-193): the document may exist, be
missing, or the provider may throw. -/
def getById (α : Type) (providerResult : Except RawError (Option α)) : ApiResponse α :=
  match providerResult with
  | .ok (some e) => { success := true, data := some e }
  | .ok none => { success := false, error := some "Document not found" }
  | .error err => handleError α err

/-- `BaseService.update` (lines 198-216) as a function of the
update-then-refetch outcome. -/
def update (α : Type) (providerResult : Except RawError α) : ApiResponse α :=
  match providerResult with
  | .ok e => { success := true, data := some e }
  | .error err => handleError α err

/-- `BaseService.delete` (lines 221-233): resolves with no data on success. -/
def delete (providerResult : Except RawError Unit) : ApiResponse Unit :=
  match providerResult with
  | .ok _ => { success := true, data := none }
  | .error err => handleError Unit err

/-- `BaseService.query` (lines 238-274) as a function of the snapshot
outcome. -/
def query (α : Type) (providerResult : Except RawError (List α)) : ApiResponse (List α) :=
  match providerResult with
  | .ok es => { success := true, data := some es }
  | .error err => handleError (List α) err

end BaseService

/-- Claim C10 counterexample: when the provider throws a failure carrying a
raw message, `BaseService.create` surfaces that raw provider string verbatim
as the result's `error` — it is not routed through the Error Classifier,
whose friendly message for the same failure differs. -/
theorem create_surfaces_raw_provider_message :
    (BaseService.create Request
        (.error ⟨some "firestore/unavailable", some "FIRESTORE backend unavailable"⟩)).error
      = some "FIRESTORE backend unavailable"
    ∧ (ErrorHandler.categorizeError
        ⟨some "firestore/unavailable", some "FIRESTORE backend unavailable"⟩).message
      = "Service temporarily unavailable. Please try again later"
    ∧ some "FIRESTORE backend unavailable"
      ≠ some "Service temporarily unavailable. Please try again later" := by
  refine ⟨by decide, rfl, by decide⟩

/-- Claim C10 (amended): every entity-store operation (create, getById,
update, delete, query) catches the provider exception and returns a
structured `{success, data, error}` result rather than throwing; but the
failure is handled by `BaseService.handleError` without the Error Classifier,
so the surfaced error message is the provider's raw message whenever one is
present (the generic fallback only when it is absent or empty). -/
theorem base_service_returns_structured_results (err : RawError) :
    BaseService.create Request (.error err) =
      { success := false, data := none,
        error := some (jsOr err.message "An unexpected error occurred"), message := none }
    ∧ BaseService.getById Request (.error err) =
      { success := false, data := none,
        error := some (jsOr err.message "An unexpected error occurred"), message := none }
    ∧ BaseService.update Request (.error err) =
      { success := false, data := none,
        error := some (jsOr err.message "An unexpected error occurred"), message := none }
    ∧ BaseService.delete (.error err) =
      { success := false, data := none,
        error := some (jsOr err.message "An unexpected error occurred"), message := none }
    ∧ BaseService.query Request (.error err) =
      { success := false, data := none,
        error := some (jsOr err.message "An unexpected error occurred"), message := none } :=
  ⟨rfl, rfl, rfl, rfl, rfl⟩
